import Mathlib

/-!
Verification of the strawberry-core GraphQL bridge
(`src/strawberry-core-rs/src/lib.rs`).

The bridge presents host (Python) objects to a native GraphQL engine
through a resolver protocol.  We embed, straight from the source:

* `camel_to_snake`                — field-name translation;
* `JsonResolver.resolve_field`    — the data-dict adapter;
* `PythonResolver.resolve_field`  — the live-resolver adapter;
* `python_to_resolved_value`      — the value marshaler;
* `execute_query` / `execute_query_with_resolvers` — the façade, with the
  engine's parsing/validation/execution and the host's JSON serializer
  supplied as explicit oracle functions (they live outside this repository).

Host (CPython + PyO3) semantics that the source relies on — attribute
lookup, `extract::<T>()`, `is_callable`, `call0` — are modelled by explicit
functions on an inductive universe `PyValue` of host values; the modelling
choices are documented on each definition.
-/

namespace Strawberry

/-- Model of a finite IEEE-754 double.  Its exact real value is `m * 2 ^ e`.
We never compute with doubles; payloads are only created, carried and
compared, so no normalisation or arithmetic is needed. -/
structure F64 where
  m : Int
  e : Int
deriving DecidableEq, Repr

/-- Model of a `serde_json` number: either an integer (the `i64`/`u64`
variants) or a floating-point number. -/
inductive JNum where
  | int (n : Int)
  | float (f : F64)
deriving DecidableEq, Repr

/-- Model of `serde_json::Value`.  Objects are association lists with
first-match lookup (serde maps have unique keys). -/
inductive Json where
  | null
  | bool (b : Bool)
  | num (n : JNum)
  | str (s : String)
  | arr (xs : List Json)
  | obj (fields : List (String × Json))

/-- `serde_json::Map::get`: first binding of the key, if any. -/
def jsonGet (fields : List (String × Json)) (key : String) : Option Json :=
  match fields with
  | [] => Option.none
  | (k, v) :: rest => if k = key then some v else jsonGet rest key

/-- `serde_json::Value::as_str`. -/
def Json.asStr : Json → Option String
  | .str s => some s
  | _ => Option.none

/-- Whether a JSON value is an object (`JsonValue::Object`). -/
def Json.isObject : Json → Bool
  | .obj _ => true
  | _ => false

/-- Universe of host (Python) values visible to the bridge.

* `pynone` is `None`; `str`, `int` (arbitrary precision), `float`, `bool`
  and `pylist` are the builtin data shapes the marshaler tests for;
* `obj className attrs` is a user object: `className` is the outcome of
  the `__class__.__name__` string extraction (`Option.none` when any of the
  three steps fails), `attrs` are its named attributes (first match wins);
* `callable result` is a nullary callable; calling it yields `result`
  (`Option.none` models a raised exception).

We model user objects without numeric or string dunder methods, so only
the builtin shapes succeed the scalar extractions below. -/
inductive PyValue where
  | pynone
  | str (s : String)
  | int (n : Int)
  | float (f : F64)
  | bool (b : Bool)
  | pylist (xs : List PyValue)
  | obj (className : Option String) (attrs : List (String × PyValue))
  | callable (result : Option PyValue)

/-- Attribute lookup (`obj.getattr(name)` in PyO3).  Only user objects
carry resolvable attributes in this model; on every other host value the
lookup fails. -/
def pyGetattr : PyValue → String → Option PyValue
  | .obj _ attrs, name => lookupAttr attrs name
  | _, _ => Option.none
where
  /-- First attribute with the given name. -/
  lookupAttr : List (String × PyValue) → String → Option PyValue
    | [], _ => Option.none
    | (k, v) :: rest, name => if k = name then some v else lookupAttr rest name

/-- Outcome of `value.getattr("__class__")?.getattr("__name__")?.extract::<String>()`.
Every builtin value has its builtin class name; for a user object it is the
modelled `className` field. -/
def classNameOf : PyValue → Option String
  | .pynone => some "NoneType"
  | .str _ => some "str"
  | .int _ => some "int"
  | .float _ => some "float"
  | .bool _ => some "bool"
  | .pylist _ => some "list"
  | .obj c _ => c
  | .callable _ => some "function"

/-- `value.is_none()`. -/
def isNone : PyValue → Bool
  | .pynone => true
  | _ => false

/-- `value.is_callable()`. -/
def isCallable : PyValue → Bool
  | .callable _ => true
  | _ => false

/-- `value.call0()`: the modelled return value, `Option.none` on a raise or
on a non-callable. -/
def call0 : PyValue → Option PyValue
  | .callable r => r
  | _ => Option.none

/-- `value.extract::<String>()`: succeeds exactly on `str` values. -/
def extractString : PyValue → Option String
  | .str s => some s
  | _ => Option.none

/-- `value.extract::<i64>()`.  PyO3 converts through `PyLong_AsLongLong`:
a Python `int` succeeds iff it fits in a signed 64-bit integer, and a
Python `bool` — a subclass of `int` — succeeds as `1`/`0`.  Nothing else
converts in this model. -/
def extractI64 : PyValue → Option Int
  | .int n => if -(2 ^ 63) ≤ n ∧ n ≤ 2 ^ 63 - 1 then some n else Option.none
  | .bool b => some (if b then 1 else 0)
  | _ => Option.none

/-- Number of halvings needed to bring `n` below `2 ^ 53`; the fuel
argument (any bound on that count, we pass `n` itself) only makes the
recursion structural. -/
def mantShift (fuel n : Nat) : Nat :=
  match fuel with
  | 0 => 0
  | fuel + 1 => if n < 2 ^ 53 then 0 else mantShift fuel (n / 2) + 1

/-- Round-to-nearest-even of a natural `n ≥ 2 ^ 53` to 53 significant bits:
returns `(q, k)` with `q * 2 ^ k` the rounded value. -/
def roundMantissa (n : Nat) : Nat × Nat :=
  let k := mantShift n n
  let q := n >>> k
  let r := n % 2 ^ k
  let half := 2 ^ (k - 1)
  if r > half || (r == half && q % 2 == 1) then (q + 1, k) else (q, k)

/-- `PyFloat_AsDouble` on a non-negative Python `int`: exact when below
`2 ^ 53`, otherwise rounded to nearest-even; `Option.none` models the
`OverflowError` when the rounded value reaches `2 ^ 1024`. -/
def f64OfNat (n : Nat) : Option F64 :=
  if n < 2 ^ 53 then some ⟨(n : Int), 0⟩
  else
    let p := roundMantissa n
    if p.1 * 2 ^ p.2 < 2 ^ 1024 then some ⟨(p.1 : Int), (p.2 : Int)⟩
    else Option.none

/-- `PyFloat_AsDouble` on an arbitrary Python `int`. -/
def f64OfInt (n : Int) : Option F64 :=
  if 0 ≤ n then f64OfNat n.toNat
  else (f64OfNat (-n).toNat).map (fun f => ⟨-f.m, f.e⟩)

/-- `value.extract::<f64>()`.  A Python `float` passes through; a Python
`int` converts (possibly lossily, failing on overflow); a `bool` converts
to `1.0`/`0.0`.  Nothing else converts in this model. -/
def extractF64 : PyValue → Option F64
  | .float f => some f
  | .int n => f64OfInt n
  | .bool b => some ⟨if b then 1 else 0, 0⟩
  | _ => Option.none

/-- `value.extract::<bool>()`: succeeds exactly on `bool` values. -/
def extractBool : PyValue → Option Bool
  | .bool b => some b
  | _ => Option.none

/-- `value.downcast::<PyList>()`: succeeds exactly on list values. -/
def asPyList : PyValue → Option (List PyValue)
  | .pylist xs => some xs
  | _ => Option.none

/-- `fn camel_to_snake` — the per-character loop body, carrying the
enumeration index.  Rust's `char::is_uppercase`/`to_lowercase` agree with
`Char.isUpper`/`Char.toLower` on the ASCII field names of the contract. -/
def camelToSnakeAux : Nat → List Char → List Char
  | _, [] => []
  | i, c :: cs =>
    (if c.isUpper then (if i > 0 then ['_'] else []) ++ [c.toLower] else [c])
      ++ camelToSnakeAux (i + 1) cs

/-- `fn camel_to_snake(s: &str) -> String` (src/lib.rs lines 10-23). -/
def camel_to_snake (s : String) : String :=
  ⟨camelToSnakeAux 0 s.data⟩

/-- The field error an adapter can emit (`self.unknown_field_error(info)`);
the only variant this design produces.  Its diagnostic payload is engine
internals and is not modelled. -/
inductive FieldError where
  | unknownField
deriving DecidableEq, Repr

/-- The slice of `ResolveInfo` the bridge consults: `info.field_name()` and
`info.field_definition().ty.inner_named_type()`. -/
structure ResolveInfo where
  field_name : String
  inner_named_type : String

/-- `struct JsonResolver` (src/lib.rs lines 25-28). -/
structure JsonResolver where
  type_name : String
  data : Json

/-- `struct PythonResolver` (src/lib.rs lines 78-81). -/
structure PythonResolver where
  type_name : String
  py_object : PyValue

/-- The two concrete `ObjectValue` implementations an adapter can hand back
to the engine. -/
inductive ObjectValueBox where
  | json (r : JsonResolver)
  | python (r : PythonResolver)

/-- `apollo_compiler::resolvers::ResolvedValue`: null, a JSON leaf, a
nested adapter, or a list. -/
inductive ResolvedValue where
  | null
  | leaf (j : Json)
  | object (o : ObjectValueBox)
  | list (xs : List ResolvedValue)

/-- `impl ObjectValue for JsonResolver :: resolve_field`
(src/lib.rs lines 41-74). -/
def JsonResolver.resolve_field (self : JsonResolver) (info : ResolveInfo) :
    Except FieldError ResolvedValue :=
  let value := match self.data with
    | .obj map => jsonGet map info.field_name
    | _ => Option.none
  match value with
  | some (.str s) => .ok (.leaf (.str s))
  | some (.num n) => .ok (.leaf (.num n))
  | some (.bool b) => .ok (.leaf (.bool b))
  | some .null => .ok .null
  | some (.arr xs) => .ok (.leaf (.arr xs))
  | some (.obj o) =>
      let type_name :=
        ((jsonGet o "__typename").bind Json.asStr).getD info.inner_named_type
      .ok (.object (.json ⟨type_name, .obj o⟩))
  | Option.none => .error .unknownField

mutual

/-- `fn python_to_resolved_value` (src/lib.rs lines 160-231): the ordered
extraction cascade — none, string, i64, f64, bool, list, object — with the
list branch recursing element by element and the object branch wrapping the
value in a fresh `PythonResolver` named after `__class__.__name__` with the
schema's inner named type as fallback. -/
def python_to_resolved_value (info : ResolveInfo) (v : PyValue) :
    Except FieldError ResolvedValue :=
  if isNone v then .ok .null
  else match extractString v with
  | some s => .ok (.leaf (.str s))
  | Option.none => match extractI64 v with
    | some i => .ok (.leaf (.num (.int i)))
    | Option.none => match extractF64 v with
      | some f => .ok (.leaf (.num (.float f)))
      | Option.none => match extractBool v with
        | some b => .ok (.leaf (.bool b))
        | Option.none => match v with
          | .pylist xs =>
            if xs.isEmpty then .ok (.leaf (.arr []))
            else do
              let items ← marshalItems info xs
              .ok (.list items)
          | _ =>
            let type_name := (classNameOf v).getD info.inner_named_type
            .ok (.object (.python ⟨type_name, v⟩))

/-- The element loop of the list branch of `python_to_resolved_value`
(src/lib.rs lines 194-200): recursively convert each item in order,
propagating the first failure. -/
def marshalItems (info : ResolveInfo) : List PyValue →
    Except FieldError (List ResolvedValue)
  | [] => .ok []
  | x :: xs => do
    let r ← python_to_resolved_value info x
    let rs ← marshalItems info xs
    .ok (r :: rs)

end

/-- `impl ObjectValue for PythonResolver :: resolve_field`
(src/lib.rs lines 94-123). -/
def PythonResolver.resolve_field (self : PythonResolver) (info : ResolveInfo) :
    Except FieldError ResolvedValue :=
  let attr := match pyGetattr self.py_object info.field_name with
    | some a => some a
    | Option.none => pyGetattr self.py_object (camel_to_snake info.field_name)
  match attr with
  | Option.none => .error .unknownField
  | some result =>
    if isCallable result then
      match call0 result with
      | Option.none => .error .unknownField
      | some call_result => python_to_resolved_value info call_result
    else
      python_to_resolved_value info result

/-- Kind of a host exception crossing the boundary.  `valueError` is the
spec's `ValidationError` (`PyValueError`), `runtimeError` its
`ExecutionError` (`PyRuntimeError`); `typeError` stands for any other host
exception kind (e.g. the `TypeError` that `json.dumps` raises on an
unserializable value). -/
inductive PyErrKind where
  | valueError
  | runtimeError
  | typeError
deriving DecidableEq, Repr

/-- A host exception: kind plus message.  Rust-side `format("...", e)`
of an engine diagnostic is modelled as the diagnostic string itself. -/
structure PyErr where
  kind : PyErrKind
  msg : String
deriving DecidableEq, Repr

/-- The engine operations the façade calls, supplied as oracles: this
repository delegates schema/document parsing and validation to
apollo-compiler.  `RawSchema`/`Schema`/`RawDoc`/`Doc` are the engine's
pre- and post-validation handle types. -/
structure EngineOps (RawSchema Schema RawDoc Doc : Type) where
  parseSchema : String → String → Except String RawSchema
  validateSchema : RawSchema → Except String Schema
  parseDoc : Schema → String → String → Except String RawDoc
  validateDoc : Schema → RawDoc → Except String Doc

/-- The serde operations the façade calls, supplied as oracles:
`serde_json::from_str` and `serde_json::to_string_pretty` over the engine's
`Response` type. -/
structure SerdeOps (Response : Type) where
  fromStr : String → Except String Json
  toStringPretty : Response → Except String String

/-- The host-side JSON serialization chain of entry point A
(`py.import("json")`, `getattr("dumps")`, `call1`, `extract::<String>`),
supplied as an oracle.  Its failure is a host exception `PyErr`, which the
source propagates with `?` unchanged. -/
structure HostJsonOps where
  dumps : PyValue → Except PyErr String

/-- `fn execute_query` (src/lib.rs lines 234-261): parse + validate the
schema, parse + validate the document (each failure mapped to
`PyValueError`), serialize the root mapping through the host's `json.dumps`
(failure propagated as the host's own exception), parse the JSON text
(failure mapped to `PyValueError`), then run the engine on a
`JsonResolver` rooted at type name `"Query"` (failure mapped to
`PyRuntimeError`) and pretty-print the response. -/
def execute_query {RS S RD D R : Type} (eng : EngineOps RS S RD D)
    (serde : SerdeOps R) (host : HostJsonOps)
    (executeSync : S → D → JsonResolver → Except String R)
    (schema_sdl query : String) (root_data : PyValue) : Except PyErr String :=
  match eng.parseSchema schema_sdl "schema.graphql" with
  | .error e => .error ⟨.valueError, e⟩
  | .ok raw_schema =>
  match eng.validateSchema raw_schema with
  | .error e => .error ⟨.valueError, e⟩
  | .ok schema =>
  match eng.parseDoc schema query "query.graphql" with
  | .error e => .error ⟨.valueError, e⟩
  | .ok raw_doc =>
  match eng.validateDoc schema raw_doc with
  | .error e => .error ⟨.valueError, e⟩
  | .ok document =>
  match host.dumps root_data with
  | .error e => .error e
  | .ok json_str =>
  match serde.fromStr json_str with
  | .error e => .error ⟨.valueError, e⟩
  | .ok root_value =>
  match executeSync schema document ⟨"Query", root_value⟩ with
  | .error e => .error ⟨.runtimeError, e⟩
  | .ok response =>
  match serde.toStringPretty response with
  | .error e => .error ⟨.valueError, e⟩
  | .ok s => .ok s

/-- `fn execute_query_with_resolvers` (src/lib.rs lines 265-287): identical
to `execute_query` except that the serialization steps are replaced by
rooting the engine at a `PythonResolver` with type name `"Query"`. -/
def execute_query_with_resolvers {RS S RD D R : Type} (eng : EngineOps RS S RD D)
    (serde : SerdeOps R)
    (executeSync : S → D → PythonResolver → Except String R)
    (schema_sdl query : String) (root_value : PyValue) : Except PyErr String :=
  match eng.parseSchema schema_sdl "schema.graphql" with
  | .error e => .error ⟨.valueError, e⟩
  | .ok raw_schema =>
  match eng.validateSchema raw_schema with
  | .error e => .error ⟨.valueError, e⟩
  | .ok schema =>
  match eng.parseDoc schema query "query.graphql" with
  | .error e => .error ⟨.valueError, e⟩
  | .ok raw_doc =>
  match eng.validateDoc schema raw_doc with
  | .error e => .error ⟨.valueError, e⟩
  | .ok document =>
  match executeSync schema document ⟨"Query", root_value⟩ with
  | .error e => .error ⟨.runtimeError, e⟩
  | .ok response =>
  match serde.toStringPretty response with
  | .error e => .error ⟨.valueError, e⟩
  | .ok s => .ok s

/-! ## Name translator (claims C7 and C8) -/

/-- A character of a GraphQL field name in the contract's domain: ASCII
letter, digit or underscore. -/
def isFieldChar (c : Char) : Prop :=
  c.isAlpha = true ∨ c.isDigit = true ∨ c = '_'

instance (c : Char) : Decidable (isFieldChar c) := by
  unfold isFieldChar
  infer_instance

/-- The spec's description of the translation, per non-initial character:
an uppercase letter becomes an inserted underscore plus its lowercase form,
everything else passes through. -/
def snakeSpecChar (c : Char) : List Char :=
  if c.isUpper then ['_', c.toLower] else [c]

/-- The translation as the spec words it: the first character is only
lowercased when uppercase, every later uppercase letter is lowercased with
an underscore inserted before it, and digits, underscores and lowercase
letters pass through. -/
def camelToSnakeSpec (s : String) : String :=
  match s.data with
  | [] => ⟨[]⟩
  | c :: cs =>
    ⟨(if c.isUpper then [c.toLower] else [c]) ++ cs.flatMap snakeSpecChar⟩

/-- Past the first character, the loop body no longer consults the index:
it acts as the spec's per-character translation. -/
theorem camelToSnakeAux_succ (cs : List Char) (i : Nat) :
    camelToSnakeAux (i + 1) cs = cs.flatMap snakeSpecChar := by
  induction cs generalizing i with
  | nil => rfl
  | cons c cs ih =>
    simp only [camelToSnakeAux, snakeSpecChar, List.flatMap_cons, ih]
    split <;> simp

/-- A character loop over characters none of which is uppercase copies its
input verbatim. -/
theorem camelToSnakeAux_no_upper (cs : List Char) (i : Nat)
    (h : ∀ c ∈ cs, c.isUpper = false) :
    camelToSnakeAux i cs = cs := by
  induction cs generalizing i with
  | nil => rfl
  | cons c cs ih =>
    have hc := h c (List.mem_cons_self c cs)
    simp only [camelToSnakeAux, hc, if_neg]
    simp only [Bool.false_eq_true, if_false]
    rw [ih (i + 1) (fun d hd => h d (List.mem_cons_of_mem c hd))]
    simp

/-- C7: on every string of ASCII letters, digits and underscores,
`camel_to_snake` replaces each uppercase letter with its lowercase form
preceded by an inserted underscore, except that an uppercase first
character is only lowercased; digits, underscores and lowercase letters
pass through unchanged.  (The function is a total Lean function, hence
pure and total.) -/
theorem camel_to_snake_matches_spec (s : String)
    (h : ∀ c ∈ s.data, isFieldChar c) :
    camel_to_snake s = camelToSnakeSpec s := by
  unfold camel_to_snake camelToSnakeSpec
  cases hs : s.data with
  | nil => rfl
  | cons c cs =>
    simp only [camelToSnakeAux, camelToSnakeAux_succ]
    split <;> simp

/-- Witness for C7 at the concrete field name `"fullName"`. -/
theorem camel_to_snake_matches_spec_witness :
    camel_to_snake "fullName" = camelToSnakeSpec "fullName" :=
  camel_to_snake_matches_spec "fullName" (by decide)

/-- C8: on an already-snake-case input (ASCII letters, digits and
underscores, none uppercase) `camel_to_snake` is the identity, so applying
it twice equals applying it once. -/
theorem camel_to_snake_idempotent_on_snake (s : String)
    (h : ∀ c ∈ s.data, isFieldChar c ∧ c.isUpper = false) :
    camel_to_snake s = s ∧
      camel_to_snake (camel_to_snake s) = camel_to_snake s := by
  have hid : camel_to_snake s = s := by
    unfold camel_to_snake
    rw [camelToSnakeAux_no_upper s.data 0 (fun c hc => (h c hc).2)]
  exact ⟨hid, by rw [hid]; exact hid⟩

/-- Witness for C8 at the concrete attribute name `"full_name9"`. -/
theorem camel_to_snake_idempotent_on_snake_witness :
    camel_to_snake "full_name9" = "full_name9" ∧
      camel_to_snake (camel_to_snake "full_name9") =
        camel_to_snake "full_name9" :=
  camel_to_snake_idempotent_on_snake "full_name9" (by decide)

/-! ## Value marshaler: boolean routing (claim C1)

The source tests `extract::<i64>()` (line 175) before `extract::<bool>()`
(line 183), and the host extraction layer converts a boolean to an
integer, so host booleans are captured by the integer branch: the boolean
branch is unreachable for genuine booleans and `True`/`False` leak as the
integer leaves `1`/`0`. -/

/-- C1 (falsified, code bug): marshaling the host booleans `True` and
`False` produces the integer leaves `1` and `0` through the integer
branch, not `leaf(boolean)` as the claim and the spec require. -/
theorem marshal_bool_leaks_as_integer :
    python_to_resolved_value ⟨"flag", "Boolean"⟩ (.bool true) =
      .ok (.leaf (.num (.int 1))) ∧
    python_to_resolved_value ⟨"flag", "Boolean"⟩ (.bool false) =
      .ok (.leaf (.num (.int 0))) := by
  constructor <;> rfl

/-! ## Data-dict adapter on non-object data (claim C9) -/

/-- C9: when a `JsonResolver`'s held data is not a JSON object — a scalar,
an array, or null — every field resolution returns
`FieldError::UnknownField`, whatever the field name and context. -/
theorem json_resolve_field_non_object (tn : String) (d : Json)
    (info : ResolveInfo) (h : d.isObject = false) :
    JsonResolver.resolve_field ⟨tn, d⟩ info = .error .unknownField := by
  cases d <;> simp_all [JsonResolver.resolve_field, Json.isObject]

/-- Witness for C9: resolving any field of a null data tree fails. -/
theorem json_resolve_field_non_object_witness :
    JsonResolver.resolve_field ⟨"Query", .null⟩ ⟨"hello", "String"⟩ =
      .error .unknownField :=
  json_resolve_field_non_object "Query" .null ⟨"hello", "String"⟩ rfl

/-! ## Value marshaler: oversized integers (claim C10) -/

/-- C10: a host integer that does not fit a signed 64-bit integer but does
convert to a 64-bit float falls through the integer branch to the float
branch: the result is the (possibly lossy) float leaf, not an error and
not an integer leaf. -/
theorem marshal_big_int_falls_to_float (info : ResolveInfo) (n : Int)
    (h1 : ¬(-(2 ^ 63) ≤ n ∧ n ≤ 2 ^ 63 - 1)) (f : F64)
    (h2 : f64OfInt n = some f) :
    python_to_resolved_value info (.int n) =
      .ok (.leaf (.num (.float f))) := by
  have hred : python_to_resolved_value info (.int n) =
      (match extractI64 (.int n) with
       | some i => .ok (.leaf (.num (.int i)))
       | Option.none =>
         match extractF64 (.int n) with
         | some g => .ok (.leaf (.num (.float g)))
         | Option.none => .ok (.object (.python ⟨"int", .int n⟩))) := rfl
  rw [hred]
  simp only [extractI64, extractF64]
  rw [if_neg h1, h2]

set_option maxRecDepth 8000 in
/-- Witness for C10 at `n = 2 ^ 63`, one past the `i64` range; its float
conversion is exact: `2 ^ 52 * 2 ^ 11`. -/
theorem marshal_big_int_falls_to_float_witness :
    python_to_resolved_value ⟨"n", "BigInt"⟩ (.int (2 ^ 63)) =
      .ok (.leaf (.num (.float ⟨2 ^ 52, 11⟩))) :=
  marshal_big_int_falls_to_float ⟨"n", "BigInt"⟩ (2 ^ 63) (by decide)
    ⟨2 ^ 52, 11⟩ (by rfl)

/-! ## Data-dict adapter (claim C2) -/

/-- C2: field resolution on a `JsonResolver` holding a JSON object:
a missing field name is `UnknownField`; a scalar value becomes the
corresponding leaf or null; an array value is returned as an opaque
`leaf(array)` and is not recursed; an object value becomes a child
`JsonResolver` named after its string-valued `__typename` entry when it
has one (whatever the schema says), and after the context's inner named
type otherwise. -/
theorem json_resolve_field_cases (tn : String)
    (map : List (String × Json)) (info : ResolveInfo) :
    (jsonGet map info.field_name = Option.none →
      JsonResolver.resolve_field ⟨tn, .obj map⟩ info = .error .unknownField) ∧
    (∀ s, jsonGet map info.field_name = some (.str s) →
      JsonResolver.resolve_field ⟨tn, .obj map⟩ info = .ok (.leaf (.str s))) ∧
    (∀ n, jsonGet map info.field_name = some (.num n) →
      JsonResolver.resolve_field ⟨tn, .obj map⟩ info = .ok (.leaf (.num n))) ∧
    (∀ b, jsonGet map info.field_name = some (.bool b) →
      JsonResolver.resolve_field ⟨tn, .obj map⟩ info = .ok (.leaf (.bool b))) ∧
    (jsonGet map info.field_name = some .null →
      JsonResolver.resolve_field ⟨tn, .obj map⟩ info = .ok .null) ∧
    (∀ xs, jsonGet map info.field_name = some (.arr xs) →
      JsonResolver.resolve_field ⟨tn, .obj map⟩ info = .ok (.leaf (.arr xs))) ∧
    (∀ o s, jsonGet map info.field_name = some (.obj o) →
      jsonGet o "__typename" = some (.str s) →
      JsonResolver.resolve_field ⟨tn, .obj map⟩ info =
        .ok (.object (.json ⟨s, .obj o⟩))) ∧
    (∀ o, jsonGet map info.field_name = some (.obj o) →
      (jsonGet o "__typename").bind Json.asStr = Option.none →
      JsonResolver.resolve_field ⟨tn, .obj map⟩ info =
        .ok (.object (.json ⟨info.inner_named_type, .obj o⟩))) := by
  refine ⟨?_, ?_, ?_, ?_, ?_, ?_, ?_, ?_⟩
  · intro h; simp [JsonResolver.resolve_field, h]
  · intro s h; simp [JsonResolver.resolve_field, h]
  · intro n h; simp [JsonResolver.resolve_field, h]
  · intro b h; simp [JsonResolver.resolve_field, h]
  · intro h; simp [JsonResolver.resolve_field, h]
  · intro xs h; simp [JsonResolver.resolve_field, h]
  · intro o s h ht
    simp [JsonResolver.resolve_field, h, ht, Json.asStr]
  · intro o h ht
    simp [JsonResolver.resolve_field, h, ht]

/-- Witness for C2: the `__typename` entry of a nested object overrides
the schema-inferred name. -/
theorem json_resolve_field_cases_witness :
    JsonResolver.resolve_field
        ⟨"Query", .obj [("node", .obj [("__typename", .str "Stadium")])]⟩
        ⟨"node", "Node"⟩ =
      .ok (.object (.json ⟨"Stadium", .obj [("__typename", .str "Stadium")]⟩)) :=
  (json_resolve_field_cases "Query" [("node", .obj [("__typename", .str "Stadium")])]
    ⟨"node", "Node"⟩).2.2.2.2.2.2.1 [("__typename", .str "Stadium")] "Stadium"
    rfl rfl

/-! ## Live-resolver adapter (claim C3) -/

/-- C3: `PythonResolver` field resolution looks the attribute up under the
verbatim field name first and only on failure under the snake-case
translation; if both lookups fail it returns `UnknownField`; a callable
attribute is invoked with zero arguments, a failed call returning
`UnknownField`; the value of a non-callable attribute, or a successful
call's result, is passed to the value marshaler with the same context. -/
theorem python_resolve_field_cases (self : PythonResolver) (info : ResolveInfo) :
    (pyGetattr self.py_object info.field_name = Option.none →
      pyGetattr self.py_object (camel_to_snake info.field_name) = Option.none →
      self.resolve_field info = .error .unknownField) ∧
    (∀ a, (pyGetattr self.py_object info.field_name = some a ∨
        (pyGetattr self.py_object info.field_name = Option.none ∧
         pyGetattr self.py_object (camel_to_snake info.field_name) = some a)) →
      (isCallable a = true →
        (call0 a = Option.none → self.resolve_field info = .error .unknownField) ∧
        (∀ r, call0 a = some r →
          self.resolve_field info = python_to_resolved_value info r)) ∧
      (isCallable a = false →
        self.resolve_field info = python_to_resolved_value info a)) := by
  constructor
  · intro h1 h2
    simp [PythonResolver.resolve_field, h1, h2]
  · intro a ha
    have hattr :
        (match pyGetattr self.py_object info.field_name with
          | some x => some x
          | Option.none =>
            pyGetattr self.py_object (camel_to_snake info.field_name)) = some a := by
      rcases ha with h | ⟨h1, h2⟩
      · simp [h]
      · simp [h1, h2]
    refine ⟨fun hc => ⟨fun h0 => ?_, fun r hr => ?_⟩, fun hc => ?_⟩
    · simp [PythonResolver.resolve_field, hattr, hc, h0]
    · simp [PythonResolver.resolve_field, hattr, hc, hr]
    · simp [PythonResolver.resolve_field, hattr, hc]

/-- Witness for C3: a verbatim lookup miss falls back to the snake-case
name, and the callable found there is invoked. -/
theorem python_resolve_field_cases_witness :
    PythonResolver.resolve_field
        ⟨"Query", .obj (some "Query") [("full_name", .callable (some (.str "X")))]⟩
        ⟨"fullName", "String"⟩ =
      python_to_resolved_value ⟨"fullName", "String"⟩ (.str "X") :=
  (((python_resolve_field_cases
      ⟨"Query", .obj (some "Query") [("full_name", .callable (some (.str "X")))]⟩
      ⟨"fullName", "String"⟩).2 (.callable (some (.str "X")))
      (Or.inr ⟨rfl, rfl⟩)).1 rfl).2 (.str "X") rfl

/-! ## Value marshaler: null and lists (claim C4) -/

/-- The element loop equals `mapM` of the marshaler over the elements:
order-preserving, propagating the first failure. -/
theorem marshalItems_eq_mapM (info : ResolveInfo) (xs : List PyValue) :
    marshalItems info xs = xs.mapM (python_to_resolved_value info) := by
  induction xs with
  | nil => rfl
  | cons x xs ih =>
    have hred : marshalItems info (x :: xs) =
        (do
          let r ← python_to_resolved_value info x
          let rs ← marshalItems info xs
          pure (r :: rs)) := rfl
    rw [hred, ih, List.mapM_cons]

/-- C4: the marshaler sends the host `None` to `ResolvedValue::null`, the
empty host list to the opaque empty JSON-array leaf, and a non-empty host
list to `list(...)` of the recursively marshaled elements in order
(`mapM` of the marshaler over the elements). -/
theorem marshal_null_and_lists (info : ResolveInfo) :
    python_to_resolved_value info .pynone = .ok .null ∧
    python_to_resolved_value info (.pylist []) = .ok (.leaf (.arr [])) ∧
    ∀ x xs, python_to_resolved_value info (.pylist (x :: xs)) =
      ((x :: xs).mapM (python_to_resolved_value info)).map ResolvedValue.list := by
  refine ⟨rfl, rfl, fun x xs => ?_⟩
  have hred : python_to_resolved_value info (.pylist (x :: xs)) =
      (do
        let items ← marshalItems info (x :: xs)
        .ok (.list items)) := rfl
  rw [hred, marshalItems_eq_mapM]
  cases (x :: xs).mapM (python_to_resolved_value info) <;> rfl

/-! ## Value marshaler: object fallthrough (claim C5) -/

/-- C5 as stated is false: the source uses the `__class__.__name__` string
without checking it for emptiness (src/lib.rs lines 210-226).  For a host
object whose class name is the empty string, the adapter's type name is
`""`, not the context's inner named type `"Stadium"` that the claim's
non-empty-string rule would require. -/
theorem marshal_rule7_empty_class_name :
    python_to_resolved_value ⟨"stadium", "Stadium"⟩ (.obj (some "") []) =
      .ok (.object (.python ⟨"", .obj (some "") []⟩)) ∧
    ("" : String) ≠ "Stadium" :=
  ⟨rfl, by decide⟩

/-- C5 (amended): every host value reaching rule 7 — not `None`, failing
the string, integer, float and boolean extractions, and not a list — is
marshaled successfully into `ResolvedValue::object` wrapping a
`PythonResolver` whose type name is the `__class__.__name__` string
whenever that lookup yields a string (empty or not), and the context's
inner named type otherwise. -/
theorem marshal_rule7_wraps_object (info : ResolveInfo) (v : PyValue)
    (h1 : isNone v = false) (h2 : extractString v = Option.none)
    (h3 : extractI64 v = Option.none) (h4 : extractF64 v = Option.none)
    (h5 : extractBool v = Option.none) (h6 : asPyList v = Option.none) :
    python_to_resolved_value info v =
      .ok (.object (.python ⟨(classNameOf v).getD info.inner_named_type, v⟩)) := by
  cases v with
  | pynone => simp [isNone] at h1
  | str s => simp [extractString] at h2
  | int n =>
    have hred : python_to_resolved_value info (.int n) =
        (match extractI64 (.int n) with
         | some i => .ok (.leaf (.num (.int i)))
         | Option.none =>
           match extractF64 (.int n) with
           | some g => .ok (.leaf (.num (.float g)))
           | Option.none => .ok (.object (.python ⟨"int", .int n⟩))) := rfl
    rw [hred, h3, h4]
    rfl
  | float f => simp [extractF64] at h4
  | bool b => simp [extractI64] at h3
  | pylist xs => simp [asPyList] at h6
  | obj c attrs => rfl
  | callable r => rfl

/-- Witness for C5 (amended) at a host object whose class is named
`"Stadium"`: the class name wins over the schema's inner named type. -/
theorem marshal_rule7_wraps_object_witness :
    python_to_resolved_value ⟨"venue", "Venue"⟩ (.obj (some "Stadium") []) =
      .ok (.object (.python ⟨"Stadium", .obj (some "Stadium") []⟩)) :=
  marshal_rule7_wraps_object ⟨"venue", "Venue"⟩ (.obj (some "Stadium") [])
    rfl rfl rfl rfl rfl rfl

/-! ## Execution façade (claim C6) -/

/-- C6 as stated is false on the serialization step: the source propagates
a `json.dumps` failure with `?` unchanged (src/lib.rs lines 245-249), so a
`TypeError` raised for an unserializable mapping surfaces as that
`TypeError`, not as a `ValidationError` — here concretely, with every
engine step succeeding, `execute_query` returns the host's `typeError`
and `typeError ≠ valueError`. -/
theorem facade_dumps_failure_keeps_host_error :
    @execute_query Unit Unit Unit Unit Unit
        ⟨fun _ _ => .ok (), fun _ => .ok (), fun _ _ _ => .ok (),
         fun _ _ => .ok ()⟩
        ⟨fun _ => .ok .null, fun _ => .ok "response"⟩
        ⟨fun _ => .error ⟨.typeError, "Object of type set is not JSON serializable"⟩⟩
        (fun _ _ _ => .ok ())
        "type Query" "query text" (.obj (some "dict") []) =
      .error ⟨.typeError, "Object of type set is not JSON serializable"⟩ ∧
    PyErrKind.typeError ≠ PyErrKind.valueError :=
  ⟨rfl, by decide⟩

/-- C6 (amended): for both entry points, a schema-parse, schema-validate,
document-parse or document-validate failure raises `ValidationError`
(`PyValueError`) and the engine's execute call is never reached (the result
is the same for every execute oracle); on the data-dict path a
host-mapping-to-JSON serialization failure propagates the host's own
exception unchanged (which need not be a `ValidationError`) and a failure
to parse the serialized JSON raises `ValidationError`, again without
execution; an engine execution failure raises `ExecutionError`
(`PyRuntimeError`); and on the success path the root adapter handed to the
engine is constructed with type name `"Query"` — a `JsonResolver` for
`execute_query`, a `PythonResolver` for `execute_query_with_resolvers`. -/
theorem facade_error_and_root_adapter {RS S RD D R : Type}
    (eng : EngineOps RS S RD D) (serde : SerdeOps R) (host : HostJsonOps)
    (sdl q : String) (rootd rootv : PyValue) :
    (∀ e, eng.parseSchema sdl "schema.graphql" = .error e →
      (∀ ex, execute_query eng serde host ex sdl q rootd =
        .error ⟨.valueError, e⟩) ∧
      (∀ ex, execute_query_with_resolvers eng serde ex sdl q rootv =
        .error ⟨.valueError, e⟩)) ∧
    (∀ rs e, eng.parseSchema sdl "schema.graphql" = .ok rs →
      eng.validateSchema rs = .error e →
      (∀ ex, execute_query eng serde host ex sdl q rootd =
        .error ⟨.valueError, e⟩) ∧
      (∀ ex, execute_query_with_resolvers eng serde ex sdl q rootv =
        .error ⟨.valueError, e⟩)) ∧
    (∀ rs s e, eng.parseSchema sdl "schema.graphql" = .ok rs →
      eng.validateSchema rs = .ok s →
      eng.parseDoc s q "query.graphql" = .error e →
      (∀ ex, execute_query eng serde host ex sdl q rootd =
        .error ⟨.valueError, e⟩) ∧
      (∀ ex, execute_query_with_resolvers eng serde ex sdl q rootv =
        .error ⟨.valueError, e⟩)) ∧
    (∀ rs s rd e, eng.parseSchema sdl "schema.graphql" = .ok rs →
      eng.validateSchema rs = .ok s →
      eng.parseDoc s q "query.graphql" = .ok rd →
      eng.validateDoc s rd = .error e →
      (∀ ex, execute_query eng serde host ex sdl q rootd =
        .error ⟨.valueError, e⟩) ∧
      (∀ ex, execute_query_with_resolvers eng serde ex sdl q rootv =
        .error ⟨.valueError, e⟩)) ∧
    (∀ rs s rd d e, eng.parseSchema sdl "schema.graphql" = .ok rs →
      eng.validateSchema rs = .ok s →
      eng.parseDoc s q "query.graphql" = .ok rd →
      eng.validateDoc s rd = .ok d →
      host.dumps rootd = .error e →
      ∀ ex, execute_query eng serde host ex sdl q rootd = .error e) ∧
    (∀ rs s rd d js e, eng.parseSchema sdl "schema.graphql" = .ok rs →
      eng.validateSchema rs = .ok s →
      eng.parseDoc s q "query.graphql" = .ok rd →
      eng.validateDoc s rd = .ok d →
      host.dumps rootd = .ok js →
      serde.fromStr js = .error e →
      ∀ ex, execute_query eng serde host ex sdl q rootd =
        .error ⟨.valueError, e⟩) ∧
    (∀ rs s rd d js tree ex e, eng.parseSchema sdl "schema.graphql" = .ok rs →
      eng.validateSchema rs = .ok s →
      eng.parseDoc s q "query.graphql" = .ok rd →
      eng.validateDoc s rd = .ok d →
      host.dumps rootd = .ok js →
      serde.fromStr js = .ok tree →
      ex s d (JsonResolver.mk "Query" tree) = .error e →
      execute_query eng serde host ex sdl q rootd =
        .error ⟨.runtimeError, e⟩) ∧
    (∀ rs s rd d ex e, eng.parseSchema sdl "schema.graphql" = .ok rs →
      eng.validateSchema rs = .ok s →
      eng.parseDoc s q "query.graphql" = .ok rd →
      eng.validateDoc s rd = .ok d →
      ex s d (PythonResolver.mk "Query" rootv) = .error e →
      execute_query_with_resolvers eng serde ex sdl q rootv =
        .error ⟨.runtimeError, e⟩) ∧
    (∀ rs s rd d js tree ex resp, eng.parseSchema sdl "schema.graphql" = .ok rs →
      eng.validateSchema rs = .ok s →
      eng.parseDoc s q "query.graphql" = .ok rd →
      eng.validateDoc s rd = .ok d →
      host.dumps rootd = .ok js →
      serde.fromStr js = .ok tree →
      ex s d (JsonResolver.mk "Query" tree) = .ok resp →
      execute_query eng serde host ex sdl q rootd =
        (match serde.toStringPretty resp with
         | .error e2 => .error ⟨.valueError, e2⟩
         | .ok out => .ok out)) ∧
    (∀ rs s rd d ex resp, eng.parseSchema sdl "schema.graphql" = .ok rs →
      eng.validateSchema rs = .ok s →
      eng.parseDoc s q "query.graphql" = .ok rd →
      eng.validateDoc s rd = .ok d →
      ex s d (PythonResolver.mk "Query" rootv) = .ok resp →
      execute_query_with_resolvers eng serde ex sdl q rootv =
        (match serde.toStringPretty resp with
         | .error e2 => .error ⟨.valueError, e2⟩
         | .ok out => .ok out)) := by
  refine ⟨?_, ?_, ?_, ?_, ?_, ?_, ?_, ?_, ?_, ?_⟩
  · intro e h
    exact ⟨fun ex => by simp [execute_query, h],
      fun ex => by simp [execute_query_with_resolvers, h]⟩
  · intro rs e h1 h2
    exact ⟨fun ex => by simp [execute_query, h1, h2],
      fun ex => by simp [execute_query_with_resolvers, h1, h2]⟩
  · intro rs s e h1 h2 h3
    exact ⟨fun ex => by simp [execute_query, h1, h2, h3],
      fun ex => by simp [execute_query_with_resolvers, h1, h2, h3]⟩
  · intro rs s rd e h1 h2 h3 h4
    exact ⟨fun ex => by simp [execute_query, h1, h2, h3, h4],
      fun ex => by simp [execute_query_with_resolvers, h1, h2, h3, h4]⟩
  · intro rs s rd d e h1 h2 h3 h4 h5 ex
    simp [execute_query, h1, h2, h3, h4, h5]
  · intro rs s rd d js e h1 h2 h3 h4 h5 h6 ex
    simp [execute_query, h1, h2, h3, h4, h5, h6]
  · intro rs s rd d js tree ex e h1 h2 h3 h4 h5 h6 h7
    simp [execute_query, h1, h2, h3, h4, h5, h6, h7]
  · intro rs s rd d ex e h1 h2 h3 h4 h5
    simp [execute_query_with_resolvers, h1, h2, h3, h4, h5]
  · intro rs s rd d js tree ex resp h1 h2 h3 h4 h5 h6 h7
    simp [execute_query, h1, h2, h3, h4, h5, h6, h7]
  · intro rs s rd d ex resp h1 h2 h3 h4 h5
    simp [execute_query_with_resolvers, h1, h2, h3, h4, h5]

/-- Witness for C6 (amended), success path of the data-dict entry point:
with an execute oracle that reports the root adapter's type name, the call
returns `"Query"` — every chain hypothesis discharged at concrete
oracles. -/
theorem facade_error_and_root_adapter_witness :
    @execute_query Unit Unit Unit Unit String
        ⟨fun _ _ => .ok (), fun _ => .ok (), fun _ _ _ => .ok (),
         fun _ _ => .ok ()⟩
        ⟨fun _ => .ok (.obj [("hello", .str "hi")]), fun r => .ok r⟩
        ⟨fun _ => .ok "serialized"⟩
        (fun _ _ r => .ok r.type_name)
        "type Query" "query text" (.obj (some "dict") []) = .ok "Query" :=
  (facade_error_and_root_adapter
      ⟨fun _ _ => .ok (), fun _ => .ok (), fun _ _ _ => .ok (),
       fun _ _ => .ok ()⟩
      ⟨fun _ => .ok (.obj [("hello", .str "hi")]), fun r => .ok r⟩
      ⟨fun _ => .ok "serialized"⟩
      "type Query" "query text" (.obj (some "dict") []) (.obj (some "dict") [])
    ).2.2.2.2.2.2.2.2.1 () () () () "serialized" (.obj [("hello", .str "hi")])
      (fun _ _ r => .ok r.type_name) "Query" rfl rfl rfl rfl rfl rfl rfl

end Strawberry
